import Mathlib

/-!
Shallow embedding of the spotirice playback-control state machine
(`internal/ui/root/rootmodel.go`).  The Bubble Tea model `RootModel`, its
`Update` reducer, and the command constructors are translated into pure Lean
definitions.  Asynchronous remote calls are represented by the `Cmd` values the
reducer emits; the bodies of the remote commands (`resumePlaybackCmd`,
`searchCmd`, `pollStateCmd`, `ensureActiveDevice`) are embedded as pure
functions of the remote responses they consume.
-/

namespace Spotirice

/-- A search-result track; the fields of `spotify.FullTrack` that
`rootmodel.go` reads (`Name`, `Artists[0].Name`, `URI`, `ID`). -/
structure Track where
  id : String
  name : String
  artists : List String
  uri : String
deriving DecidableEq, Repr

/-- Fallback value used to totalize list indexing that Go performs only under
a bounds guard. -/
def defaultTrack : Track := { id := "", name := "", artists := [], uri := "" }

/-- The payload of `playerStateMsg` in `rootmodel.go`. -/
structure PlayerStateData where
  trackName : String
  artistName : String
  progressMs : Int
  durationMs : Int
  playing : Bool
  id : String
  liked : Bool
  volume : Int
deriving DecidableEq, Repr

/-- One entry of the `PlayerDevices` response, the fields `ensureActiveDevice`
reads (`ID`, `Type`, `Active`, `Restricted`). -/
structure PlayerDevice where
  id : String
  deviceType : String
  active : Bool
  restricted : Bool
deriving DecidableEq, Repr

/-- Mouse buttons distinguished by the reducer. -/
inductive MouseButton where
  | left
  | middle
  | wheelUp
  | wheelDown
deriving DecidableEq, Repr

/-- Mouse actions distinguished by the reducer (`tea.MouseActionRelease` vs
everything else). -/
inductive MouseAction where
  | press
  | release
  | motion
deriving DecidableEq, Repr

/-- The messages consumed by `RootModel.Update`.  `key` carries the result of
`msg.String()`; `playerState`, `status`, `clearStatus`, `err` and
`searchResults` are the message types declared at the top of `rootmodel.go`. -/
inductive Msg where
  | windowSize (width height : Int)
  | key (k : String)
  | mouse (b : MouseButton) (a : MouseAction) (x y : Int)
  | tick
  | playerState (ps : PlayerStateData)
  | status (s : String)
  | clearStatus
  | err (e : String)
  | searchResults (tracks : List Track)
deriving DecidableEq, Repr

/-- The commands (`tea.Cmd` values) the reducer can emit.  Each remote
operation is represented by the constructor naming it; `tickNormal` is the
1000 ms `tickCmd`, `fastTick` the 100 ms `fastTickCmd`, `clearStatusAfter`
the 5 s `clearStatusCmd`, `blink` the text-input cursor blink, and `batch`
is `tea.Batch` of two commands. -/
inductive Cmd where
  | none
  | batch (a b : Cmd)
  | pollState
  | tickNormal
  | fastTick
  | clearStatusAfter
  | blink
  | quit
  | pause
  | resume
  | next
  | prev
  | toggleLike (id : String) (liked : Bool)
  | setVolume (v : Int)
  | seek (positionMs : Int)
  | search (query : String)
  | playTrack (uri : String)
deriving DecidableEq, Repr

/-- The `RootModel` struct.  The `*spotify.Client` pointer is embedded as the
presence flag `hasClient` (the reducer only ever compares it against `nil`);
the external `textinput.Model` is embedded as its current value
`searchValue`. -/
structure RootModel where
  hasClient : Bool
  status : String
  trackName : String
  artistName : String
  progressMs : Int
  durationMs : Int
  isPlaying : Bool
  hasInitialState : Bool
  currentTrackID : String
  trackIsLiked : Bool
  volume : Int
  showHelp : Bool
  burstTicksRemaining : Int
  isSearching : Bool
  searchValue : String
  searchResults : List Track
  searchCursor : Nat
  width : Int
  height : Int
deriving DecidableEq, Repr

/-- `NewRootModel`: Go zero values for every field not set explicitly, and the
initial status line from `rootmodel.go`. -/
def newRootModel (hasClient : Bool) : RootModel :=
  { hasClient := hasClient
    status := "Authenticated. Use p/space to play/pause, n/b to skip."
    trackName := ""
    artistName := ""
    progressMs := 0
    durationMs := 0
    isPlaying := false
    hasInitialState := false
    currentTrackID := ""
    trackIsLiked := false
    volume := 0
    showHelp := false
    burstTicksRemaining := 0
    isSearching := false
    searchValue := ""
    searchResults := []
    searchCursor := 0
    width := 0
    height := 0 }

/-- Go integer division truncates toward zero, matching `Int.tdiv`. -/
def goDiv (a b : Int) : Int := Int.tdiv a b

/-- `formatTime` from `rootmodel.go`: `"%d:%02d"` of minutes and seconds,
with negative inputs clamped to zero first. -/
def formatTime (ms : Int) : String :=
  let ms := if ms < 0 then 0 else ms
  let totalSec := goDiv ms 1000
  let minutes := goDiv totalSec 60
  let seconds := totalSec % 60
  toString minutes ++ ":" ++ (if seconds < 10 then "0" ++ toString seconds else toString seconds)

/-- The search-mode key handler: the `if m.isSearching` block of the
`tea.KeyMsg` case.  The `default` branch forwards the key to the external
text-input component, embedded as appending the key to the stored value. -/
def handleSearchKey (m : RootModel) (k : String) : RootModel × Cmd :=
  if k = "esc" then
    ({ m with isSearching := false, searchResults := [], searchCursor := 0 }, Cmd.none)
  else if k = "enter" then
    if 0 < m.searchResults.length ∧ m.searchCursor < m.searchResults.length then
      let track := (m.searchResults.get? m.searchCursor).getD defaultTrack
      ({ m with isSearching := false, searchResults := [], searchCursor := 0 },
        Cmd.playTrack track.uri)
    else if m.searchValue ≠ "" then
      (m, Cmd.search m.searchValue)
    else
      (m, Cmd.none)
  else if k = "up" then
    (if 0 < m.searchCursor then { m with searchCursor := m.searchCursor - 1 } else m, Cmd.none)
  else if k = "down" then
    (if m.searchCursor < m.searchResults.length - 1 then
      { m with searchCursor := m.searchCursor + 1 }
     else m, Cmd.none)
  else
    ({ m with searchValue := m.searchValue ++ k }, Cmd.none)

/-- The main key switch of the `tea.KeyMsg` case (reached when not searching
and the key was not consumed by the help-close check). -/
def handleNormalKey (m : RootModel) (k : String) : RootModel × Cmd :=
  if k = "/" ∨ k = "s" then
    ({ m with isSearching := true, searchValue := "", searchResults := [], searchCursor := 0 },
      Cmd.blink)
  else if k = "?" then
    ({ m with showHelp := !m.showHelp }, Cmd.none)
  else if k = "p" ∨ k = " " then
    if !m.hasClient then (m, Cmd.none)
    else if m.isPlaying then
      ({ m with burstTicksRemaining := 10 }, Cmd.pause)
    else
      ({ m with burstTicksRemaining := 10 }, Cmd.resume)
  else if k = "n" then
    if !m.hasClient then (m, Cmd.none)
    else ({ m with burstTicksRemaining := 10 }, Cmd.next)
  else if k = "b" then
    if !m.hasClient then (m, Cmd.none)
    else ({ m with burstTicksRemaining := 10 }, Cmd.prev)
  else if k = "l" then
    if m.currentTrackID ≠ "" then
      ({ m with burstTicksRemaining := 10 }, Cmd.toggleLike m.currentTrackID m.trackIsLiked)
    else (m, Cmd.none)
  else if k = "+" ∨ k = "=" then
    if m.hasClient then
      let newVol := m.volume + 10
      let newVol := if newVol > 100 then 100 else newVol
      ({ m with burstTicksRemaining := 10 }, Cmd.setVolume newVol)
    else (m, Cmd.none)
  else if k = "-" ∨ k = "_" then
    if m.hasClient then
      let newVol := m.volume - 10
      let newVol := if newVol < 0 then 0 else newVol
      ({ m with burstTicksRemaining := 10 }, Cmd.setVolume newVol)
    else (m, Cmd.none)
  else if k = "left" then
    if m.hasClient ∧ m.progressMs > 0 then
      let newPos := m.progressMs - 10000
      let newPos := if newPos < 0 then 0 else newPos
      ({ m with burstTicksRemaining := 10 }, Cmd.seek newPos)
    else (m, Cmd.none)
  else if k = "right" then
    if m.hasClient ∧ m.durationMs > 0 then
      let newPos := m.progressMs + 10000
      let newPos := if newPos > m.durationMs then m.durationMs - 1000 else newPos
      ({ m with burstTicksRemaining := 10 }, Cmd.seek newPos)
    else (m, Cmd.none)
  else if k = "q" ∨ k = "ctrl+c" then
    (m, Cmd.quit)
  else
    (m, Cmd.none)

/-- The full `tea.KeyMsg` case: search-mode routing first, then the
help-close check (only `esc` and `?` close help; any other key falls through
to the main switch), then the main switch. -/
def handleKey (m : RootModel) (k : String) : RootModel × Cmd :=
  if m.isSearching then handleSearchKey m k
  else if m.showHelp ∧ (k = "esc" ∨ k = "?") then
    ({ m with showHelp := false }, Cmd.none)
  else handleNormalKey m k

/-- Display width of the rendered controls string
`" [ .. Search ]  [ %s ]  [ .. ]  [ .. ]  [ %s ] "` as computed by
`lipgloss.Width`: the magnifier glyph is two cells wide and the play and
heart glyphs are one cell each, so the width is independent of state. -/
def controlsWidth : Int := 43

/-- Bar width from `renderProgressLine` and the progress-bar click handler:
terminal width (with `80` substituted when not yet known) minus the fixed
reserve of `4 + 15` cells, floored at `10`. -/
def progressBarWidth (m : RootModel) : Int :=
  let w := if m.width ≤ 0 then 80 else m.width
  let bw := w - 4 - 15
  if bw < 10 then 10 else bw

/-- Width in cells of the `"cur/total "` timer text preceding the bar. -/
def progressTimerWidth (m : RootModel) : Int :=
  ((formatTime m.progressMs).length : Int) + 1 + ((formatTime m.durationMs).length : Int) + 1

/-- First column of the progress bar as computed by the click handler:
the centred progress line's padding plus the timer width minus two. -/
def progressBarStartX (m : RootModel) : Int :=
  let containerWidth := m.width - 2
  let progressLineWidth := progressTimerWidth m + progressBarWidth m
  let padding := goDiv (containerWidth - progressLineWidth) 2
  padding + progressTimerWidth m - 2

/-- Click X relative to the start of the progress bar. -/
def barClickPosOf (m : RootModel) (x : Int) : Int := x - progressBarStartX m

/-- The progress-bar section of the `tea.MouseMsg` case.  The Go code divides
`float64` values; the embedding uses exact rationals, and Go's `int(...)`
truncation is `Int.floor` because the clamped ratio and the duration are
non-negative here. -/
def progressRowCheck (m : RootModel) (x y : Int) : RootModel × Cmd :=
  let progressRow : Int := 1 + 1 + 2 + 1
  if y = progressRow ∧ m.hasClient ∧ m.durationMs > 0 then
    let barWidth := progressBarWidth m
    let barClickPos := barClickPosOf m x
    if 0 ≤ barClickPos ∧ barClickPos < barWidth then
      let frac : ℚ := (barClickPos : ℚ) / (barWidth : ℚ)
      let frac := if frac < 0 then 0 else frac
      let frac := if frac > 1 then 1 else frac
      let seekPos : Int := Int.floor (frac * (m.durationMs : ℚ))
      ({ m with burstTicksRemaining := 10 }, Cmd.seek seekPos)
    else (m, Cmd.none)
  else (m, Cmd.none)

/-- The release-only part of the `tea.MouseMsg` case: the control-button row
followed by the progress-bar row.  A click in the heart span with no current
track, or outside every span, falls through to the progress-bar check exactly
as the Go `switch` falls out without returning. -/
def handleMouseRelease (m : RootModel) (x y : Int) : RootModel × Cmd :=
  let controlRow : Int := 1 + 1 + 2 + 1 + 1
  if y = controlRow ∧ m.hasClient then
    let containerWidth := m.width - 2
    let padding := goDiv (containerWidth - controlsWidth) 2
    let relativeX := x - padding
    if 1 ≤ relativeX ∧ relativeX ≤ 12 then
      ({ m with isSearching := true, searchValue := "", searchResults := [], searchCursor := 0 },
        Cmd.blink)
    else if 15 ≤ relativeX ∧ relativeX ≤ 19 then
      if m.isPlaying then
        ({ m with burstTicksRemaining := 10 }, Cmd.pause)
      else
        ({ m with burstTicksRemaining := 10 }, Cmd.resume)
    else if 22 ≤ relativeX ∧ relativeX ≤ 26 then
      ({ m with burstTicksRemaining := 10 }, Cmd.prev)
    else if 29 ≤ relativeX ∧ relativeX ≤ 33 then
      ({ m with burstTicksRemaining := 10 }, Cmd.next)
    else if 36 ≤ relativeX ∧ relativeX ≤ 40 ∧ m.currentTrackID ≠ "" then
      ({ m with burstTicksRemaining := 10 }, Cmd.toggleLike m.currentTrackID m.trackIsLiked)
    else progressRowCheck m x y
  else progressRowCheck m x y

/-- The full `tea.MouseMsg` case: wheel scrolling while searching with
results (regardless of the action field), then the release-only guard, then
the row hit tests. -/
def handleMouse (m : RootModel) (b : MouseButton) (a : MouseAction) (x y : Int) :
    RootModel × Cmd :=
  if m.isSearching ∧ m.searchResults ≠ [] ∧ b = MouseButton.wheelUp then
    (if 0 < m.searchCursor then { m with searchCursor := m.searchCursor - 1 } else m, Cmd.none)
  else if m.isSearching ∧ m.searchResults ≠ [] ∧ b = MouseButton.wheelDown then
    (if m.searchCursor < m.searchResults.length - 1 then
      { m with searchCursor := m.searchCursor + 1 }
     else m, Cmd.none)
  else if a ≠ MouseAction.release then (m, Cmd.none)
  else handleMouseRelease m x y

/-- The `tickMsg` case: burst mode decrements the counter and reschedules at
100 ms; otherwise the 1000 ms tick is rescheduled and, when a client is
present, playback is playing and an initial state has been received, the
displayed progress is advanced by 1000 ms clamped to the duration.  Both
branches batch a state poll with the next tick. -/
def handleTick (m : RootModel) : RootModel × Cmd :=
  if m.burstTicksRemaining > 0 then
    ({ m with burstTicksRemaining := m.burstTicksRemaining - 1 },
      Cmd.batch Cmd.pollState Cmd.fastTick)
  else
    let m' :=
      if m.hasClient ∧ m.isPlaying ∧ m.hasInitialState then
        let p := m.progressMs + 1000
        { m with progressMs := if p > m.durationMs then m.durationMs else p }
      else m
    (m', Cmd.batch Cmd.pollState Cmd.tickNormal)

/-- `RootModel.Update`, as a pure reducer from a model and a message to the
next model and the emitted command. -/
def updateModel (m : RootModel) : Msg → RootModel × Cmd
  | Msg.windowSize w h => ({ m with width := w, height := h }, Cmd.none)
  | Msg.key k => handleKey m k
  | Msg.mouse b a x y => handleMouse m b a x y
  | Msg.tick => handleTick m
  | Msg.playerState ps =>
      ({ m with
          hasInitialState := true
          trackName := ps.trackName
          artistName := ps.artistName
          progressMs := ps.progressMs
          durationMs := ps.durationMs
          isPlaying := ps.playing
          currentTrackID := ps.id
          trackIsLiked := ps.liked
          volume := ps.volume }, Cmd.none)
  | Msg.status s => ({ m with status := s }, Cmd.clearStatusAfter)
  | Msg.clearStatus => ({ m with status := "" }, Cmd.none)
  | Msg.err e => ({ m with status := "Error: " ++ e }, Cmd.clearStatusAfter)
  | Msg.searchResults tracks =>
      ({ m with searchResults := tracks, searchCursor := 0 }, Cmd.none)

/-- Folds a list of arriving messages through the reducer, keeping the model. -/
def applyEvents (m : RootModel) (msgs : List Msg) : RootModel :=
  msgs.foldl (fun st msg => (updateModel st msg).1) m

/-- The device filter of `ensureActiveDevice`: not restricted and of type
Computer, Smartphone or Speaker. -/
def validDevice (d : PlayerDevice) : Bool :=
  !d.restricted &&
    (d.deviceType = "Computer" || d.deviceType = "Smartphone" || d.deviceType = "Speaker")

/-- The device scan loop of `ensureActiveDevice`: walks the list, remembers
the first valid device, and stops at the first valid active device.  Returns
the active device found (if any) and the first-valid accumulator. -/
def scanDevices : List PlayerDevice → Option PlayerDevice →
    Option PlayerDevice × Option PlayerDevice
  | [], firstValid => (none, firstValid)
  | d :: rest, firstValid =>
    if validDevice d then
      let firstValid := if firstValid.isNone then some d else firstValid
      if d.active then (some d, firstValid)
      else scanDevices rest firstValid
    else scanDevices rest firstValid

/-- `ensureActiveDevice` as a decision function on the device list:
`Except.ok none` means an active controllable device already exists and no
transfer is issued; `Except.ok (some id)` means `TransferPlayback` is issued
to device `id` (its own remote outcome is supplied separately in
`resumePlayback`); the two error strings are the ones in the source. -/
def ensureActiveDevice (devices : List PlayerDevice) : Except String (Option String) :=
  if devices = [] then Except.error "no devices found; open Spotify on a device"
  else
    match scanDevices devices none with
    | (some _, _) => Except.ok none
    | (none, some fv) => Except.ok (some fv.id)
    | (none, none) => Except.error "no controllable devices available"

/-- The valid (controllable) devices of a list, in list order. -/
def validOf (devices : List PlayerDevice) : List PlayerDevice :=
  devices.filter validDevice

/-- `resumePlaybackCmd` as a function of the remote responses it consumes:
the device list, the `TransferPlayback` outcome (used only when a transfer
target was chosen), the `PlayerState` outcome (`some playing` or `none` for a
nil state), and the `Play` outcome (used only when the state reports not
playing). -/
def resumePlayback (devices : List PlayerDevice) (transferRes : Except String Unit)
    (stateRes : Except String (Option Bool)) (playRes : Except String Unit) : Msg :=
  match ensureActiveDevice devices with
  | Except.error e => Msg.err e
  | Except.ok target =>
    let afterTransfer : Except String Unit :=
      match target with
      | some _ => transferRes
      | none => Except.ok ()
    match afterTransfer with
    | Except.error e => Msg.err e
    | Except.ok _ =>
      match stateRes with
      | Except.error e => Msg.err e
      | Except.ok st =>
        match st with
        | some false =>
          match playRes with
          | Except.error e => Msg.err e
          | Except.ok _ => Msg.status "Resumed playback."
        | _ => Msg.status "Resumed playback."

/-- `searchCmd` as a function of the remote search outcome: errors become
error messages, an empty result list becomes the "No results found" status,
and otherwise the list is truncated to ten entries. -/
def searchCmdResult (res : Except String (List Track)) : Msg :=
  match res with
  | Except.error e => Msg.err e
  | Except.ok tracks =>
    if tracks.length = 0 then Msg.status "No results found"
    else Msg.searchResults (if tracks.length > 10 then tracks.take 10 else tracks)

/-- `pollStateCmd` as a function of the remote outcome: `none` stands for a
failed call, a nil state or a nil item, all of which produce the waiting
status; otherwise the assembled `playerStateMsg` is returned. -/
def pollStateResult (res : Option PlayerStateData) : Msg :=
  match res with
  | none => Msg.status "Waiting for playback..."
  | some ps => Msg.playerState ps

/-- The playback fields of the model, bundled for frame conditions. -/
def playbackFields (m : RootModel) :
    String × String × Int × Int × Bool × String × Bool × Int :=
  (m.trackName, m.artistName, m.progressMs, m.durationMs, m.isPlaying,
    m.currentTrackID, m.trackIsLiked, m.volume)

/-- A state that has received an initial refresh and is currently paused. -/
def pausedClientModel : RootModel :=
  { newRootModel true with durationMs := 100000, hasInitialState := true }

/-- A state whose displayed position sits at the end of the track. -/
def fullSeekModel : RootModel :=
  { newRootModel true with progressMs := 5000, durationMs := 5000 }

/-- A state with the help screen open. -/
def helpOpenModel : RootModel :=
  { newRootModel true with showHelp := true }

/-- A 29-column terminal playing a 25 ms track: the progress bar is 10 cells
wide and starts at column 11. -/
def clickModel : RootModel :=
  { newRootModel true with width := 29, durationMs := 25 }

/-- A state three seconds into a long track. -/
def midTrackModel : RootModel :=
  { newRootModel true with progressMs := 3000, durationMs := 200000 }

/-- A single inactive but controllable device. -/
def loneDevice : PlayerDevice :=
  { id := "dev1", deviceType := "Computer", active := false, restricted := false }

theorem handleTick_burst (m : RootModel) :
    (handleTick m).1.burstTicksRemaining =
      if m.burstTicksRemaining > 0 then m.burstTicksRemaining - 1
      else m.burstTicksRemaining := by
  unfold handleTick
  split_ifs with h h' <;> simp

theorem handleTick_cmd (m : RootModel) :
    (handleTick m).2 =
      if m.burstTicksRemaining > 0 then Cmd.batch Cmd.pollState Cmd.fastTick
      else Cmd.batch Cmd.pollState Cmd.tickNormal := by
  unfold handleTick
  split_ifs with h h' <;> simp

theorem handleTick_progress (m : RootModel) :
    (handleTick m).1.progressMs =
      if m.burstTicksRemaining > 0 then m.progressMs
      else if m.hasClient = true ∧ m.isPlaying = true ∧ m.hasInitialState = true then
        min (m.progressMs + 1000) m.durationMs
      else m.progressMs := by
  unfold handleTick
  split_ifs with h h'
  · simp
  · simp only [min_def]
    split_ifs <;> omega
  · simp

/-- C10: with an empty current track id, the like key leaves the whole state
unchanged and emits no command. -/
theorem like_key_noop (m : RootModel) (hid : m.currentTrackID = "")
    (hs : m.isSearching = false) :
    updateModel m (Msg.key "l") = (m, Cmd.none) := by
  simp [updateModel, handleKey, handleNormalKey, hid, hs]

/-- C10 witness: the initial model has no current track, and pressing the
like key returns it unchanged with no command. -/
theorem like_key_noop_witness :
    updateModel (newRootModel true) (Msg.key "l") = (newRootModel true, Cmd.none) :=
  like_key_noop (newRootModel true) rfl rfl

/-- C5 counterexample: status "A" is set, then status "B" is set, then the
clear event scheduled by "A" arrives; the displayed status afterwards is the
empty string, not "B". -/
theorem stale_clear_counterexample :
    (updateModel
        (updateModel ((updateModel (newRootModel true) (Msg.status "A")).1)
          (Msg.status "B")).1
        Msg.clearStatus).1.status = ""
    ∧ ("" : String) ≠ "B" := by
  constructor
  · rfl
  · decide

/-- C5 (amended): setting a status stores it and schedules the 5 second
clear, but a clear event empties the status unconditionally, so a stale
clear scheduled by an earlier message erases a newer one: after "a" is set,
then "b", then the clear from "a" arrives, the status is empty, not "b". -/
theorem status_clear_semantics (m : RootModel) (a b : String) :
    (updateModel m (Msg.status a)).1.status = a
    ∧ (updateModel m (Msg.status a)).2 = Cmd.clearStatusAfter
    ∧ (updateModel m (Msg.err a)).2 = Cmd.clearStatusAfter
    ∧ (updateModel
        (updateModel ((updateModel m (Msg.status a)).1) (Msg.status b)).1
        Msg.clearStatus).1.status = "" := by
  refine ⟨rfl, rfl, rfl, rfl⟩

/-- C2 counterexample: a refresh result carrying progress 5000 and duration
1000 is stored unclamped, so the updated state violates
progressMs ≤ durationMs. -/
theorem refresh_unclamped_counterexample :
    (updateModel (newRootModel true)
        (Msg.playerState
          { trackName := "t", artistName := "a", progressMs := 5000,
            durationMs := 1000, playing := true, id := "id", liked := false,
            volume := 50 })).1.durationMs <
      (updateModel (newRootModel true)
        (Msg.playerState
          { trackName := "t", artistName := "a", progressMs := 5000,
            durationMs := 1000, playing := true, id := "id", liked := false,
            volume := 50 })).1.progressMs := by
  decide

/-- C1 counterexample: with no burst pending, a paused state with a known
duration does not have its progress advanced on a normal tick, while the
claim predicts an unconditional advance of 1000 ms clamped to the duration. -/
theorem tick_no_advance_paused_counterexample :
    (updateModel pausedClientModel Msg.tick).1.progressMs = 0
    ∧ min (pausedClientModel.progressMs + 1000) pausedClientModel.durationMs = 1000
    ∧ (0 : Int) ≠ 1000 := by
  refine ⟨rfl, by decide, by decide⟩

/-- C3 counterexample: a forward seek whose target exceeds the duration
requests duration minus 1000 ms, not the duration itself: at progress 5000
of 5000 the emitted seek asks for 4000. -/
theorem forward_seek_counterexample :
    (updateModel fullSeekModel (Msg.key "right")).2 = Cmd.seek 4000
    ∧ (4000 : Int) ≠ fullSeekModel.durationMs := by
  refine ⟨rfl, by decide⟩

/-- C8 counterexample: from the initial state, pressing "?" opens help and
then pressing "s" enters search mode without closing help, so the help and
search modes are simultaneously active. -/
theorem help_and_search_counterexample :
    ((updateModel ((updateModel (newRootModel true) (Msg.key "?")).1)
        (Msg.key "s")).1.showHelp = true)
    ∧ ((updateModel ((updateModel (newRootModel true) (Msg.key "?")).1)
        (Msg.key "s")).1.isSearching = true) := by
  refine ⟨rfl, rfl⟩

/-- C1 (amended): on a tick, a positive burst counter is decremented by one
and the next tick is scheduled fast, otherwise the next tick is scheduled at
the normal rate and progress advances by 1000 ms clamped to the duration
only when a client is present, playback is playing and an initial state has
been received; both branches batch a refresh request; the burst counter
never increases on a tick; and each control key sets the burst counter to
exactly 10 when its guard holds (a client outside search mode; the like key
instead requires a current track; backward seek requires positive progress;
forward seek requires positive duration) and leaves it unchanged
otherwise. -/
theorem tick_and_burst_behavior (m : RootModel) :
    ((updateModel m Msg.tick).1.burstTicksRemaining =
      if m.burstTicksRemaining > 0 then m.burstTicksRemaining - 1
      else m.burstTicksRemaining)
    ∧ ((updateModel m Msg.tick).2 =
      if m.burstTicksRemaining > 0 then Cmd.batch Cmd.pollState Cmd.fastTick
      else Cmd.batch Cmd.pollState Cmd.tickNormal)
    ∧ ((updateModel m Msg.tick).1.progressMs =
      if m.burstTicksRemaining > 0 then m.progressMs
      else if m.hasClient = true ∧ m.isPlaying = true ∧ m.hasInitialState = true then
        min (m.progressMs + 1000) m.durationMs
      else m.progressMs)
    ∧ ((updateModel m Msg.tick).1.burstTicksRemaining ≤ m.burstTicksRemaining)
    ∧ ((updateModel m (Msg.key "p")).1.burstTicksRemaining =
      if m.isSearching = false ∧ m.hasClient = true then 10 else m.burstTicksRemaining)
    ∧ ((updateModel m (Msg.key " ")).1.burstTicksRemaining =
      if m.isSearching = false ∧ m.hasClient = true then 10 else m.burstTicksRemaining)
    ∧ ((updateModel m (Msg.key "n")).1.burstTicksRemaining =
      if m.isSearching = false ∧ m.hasClient = true then 10 else m.burstTicksRemaining)
    ∧ ((updateModel m (Msg.key "b")).1.burstTicksRemaining =
      if m.isSearching = false ∧ m.hasClient = true then 10 else m.burstTicksRemaining)
    ∧ ((updateModel m (Msg.key "+")).1.burstTicksRemaining =
      if m.isSearching = false ∧ m.hasClient = true then 10 else m.burstTicksRemaining)
    ∧ ((updateModel m (Msg.key "=")).1.burstTicksRemaining =
      if m.isSearching = false ∧ m.hasClient = true then 10 else m.burstTicksRemaining)
    ∧ ((updateModel m (Msg.key "-")).1.burstTicksRemaining =
      if m.isSearching = false ∧ m.hasClient = true then 10 else m.burstTicksRemaining)
    ∧ ((updateModel m (Msg.key "_")).1.burstTicksRemaining =
      if m.isSearching = false ∧ m.hasClient = true then 10 else m.burstTicksRemaining)
    ∧ ((updateModel m (Msg.key "l")).1.burstTicksRemaining =
      if m.isSearching = false ∧ m.currentTrackID ≠ "" then 10 else m.burstTicksRemaining)
    ∧ ((updateModel m (Msg.key "left")).1.burstTicksRemaining =
      if m.isSearching = false ∧ m.hasClient = true ∧ m.progressMs > 0 then 10
      else m.burstTicksRemaining)
    ∧ ((updateModel m (Msg.key "right")).1.burstTicksRemaining =
      if m.isSearching = false ∧ m.hasClient = true ∧ m.durationMs > 0 then 10
      else m.burstTicksRemaining) := by
  refine ⟨handleTick_burst m, handleTick_cmd m, handleTick_progress m, ?_,
    ?_, ?_, ?_, ?_, ?_, ?_, ?_, ?_, ?_, ?_, ?_⟩
  · rw [show (updateModel m Msg.tick).1 = (handleTick m).1 from rfl, handleTick_burst m]
    split_ifs <;> omega
  all_goals
    cases hs : m.isSearching <;> cases hc : m.hasClient <;>
      simp [updateModel, handleKey, handleSearchKey, handleNormalKey, hs, hc] <;>
      split_ifs <;> simp_all

set_option maxHeartbeats 1000000 in
theorem handleSearchKey_frame (m : RootModel) (k : String) :
    (handleSearchKey m k).1.progressMs = m.progressMs
    ∧ (handleSearchKey m k).1.durationMs = m.durationMs := by
  simp only [handleSearchKey]
  repeat' split
  all_goals exact ⟨rfl, rfl⟩

set_option maxHeartbeats 1000000 in
theorem handleNormalKey_frame (m : RootModel) (k : String) :
    (handleNormalKey m k).1.progressMs = m.progressMs
    ∧ (handleNormalKey m k).1.durationMs = m.durationMs := by
  unfold handleNormalKey
  by_cases h1 : k = "/" ∨ k = "s"
  · rw [if_pos h1]; exact ⟨rfl, rfl⟩
  rw [if_neg h1]
  by_cases h2 : k = "?"
  · rw [if_pos h2]; exact ⟨rfl, rfl⟩
  rw [if_neg h2]
  by_cases h3 : k = "p" ∨ k = " "
  · rw [if_pos h3]; split_ifs <;> exact ⟨rfl, rfl⟩
  rw [if_neg h3]
  by_cases h4 : k = "n"
  · rw [if_pos h4]; split_ifs <;> exact ⟨rfl, rfl⟩
  rw [if_neg h4]
  by_cases h5 : k = "b"
  · rw [if_pos h5]; split_ifs <;> exact ⟨rfl, rfl⟩
  rw [if_neg h5]
  by_cases h6 : k = "l"
  · rw [if_pos h6]; split_ifs <;> exact ⟨rfl, rfl⟩
  rw [if_neg h6]
  by_cases h7 : k = "+" ∨ k = "="
  · rw [if_pos h7]; split_ifs <;> exact ⟨rfl, rfl⟩
  rw [if_neg h7]
  by_cases h8 : k = "-" ∨ k = "_"
  · rw [if_pos h8]; split_ifs <;> exact ⟨rfl, rfl⟩
  rw [if_neg h8]
  by_cases h9 : k = "left"
  · rw [if_pos h9]; split_ifs <;> exact ⟨rfl, rfl⟩
  rw [if_neg h9]
  by_cases h10 : k = "right"
  · rw [if_pos h10]; split_ifs <;> exact ⟨rfl, rfl⟩
  rw [if_neg h10]
  by_cases h11 : k = "q" ∨ k = "ctrl+c"
  · rw [if_pos h11]; exact ⟨rfl, rfl⟩
  rw [if_neg h11]
  exact ⟨rfl, rfl⟩

theorem handleKey_frame (m : RootModel) (k : String) :
    (handleKey m k).1.progressMs = m.progressMs
    ∧ (handleKey m k).1.durationMs = m.durationMs := by
  simp only [handleKey]
  split_ifs
  · exact handleSearchKey_frame m k
  · simp
  · exact handleNormalKey_frame m k

theorem progressRowCheck_frame (m : RootModel) (x y : Int) :
    (progressRowCheck m x y).1.progressMs = m.progressMs
    ∧ (progressRowCheck m x y).1.durationMs = m.durationMs := by
  simp only [progressRowCheck]
  split_ifs <;> simp

theorem handleMouseRelease_frame (m : RootModel) (x y : Int) :
    (handleMouseRelease m x y).1.progressMs = m.progressMs
    ∧ (handleMouseRelease m x y).1.durationMs = m.durationMs := by
  simp only [handleMouseRelease]
  split_ifs <;> first
    | simp
    | exact progressRowCheck_frame m x y

theorem handleMouse_frame (m : RootModel) (b : MouseButton) (a : MouseAction) (x y : Int) :
    (handleMouse m b a x y).1.progressMs = m.progressMs
    ∧ (handleMouse m b a x y).1.durationMs = m.durationMs := by
  simp only [handleMouse]
  split_ifs <;> first
    | simp
    | exact handleMouseRelease_frame m x y

/-- C2 (amended): the invariant 0 ≤ progressMs ≤ durationMs is preserved by
every update step, provided any incoming refresh payload itself satisfies
it; refresh results are stored unclamped, so the invariant holds after a
refresh only when the remote values already satisfy it.  In particular the
local tick advance never pushes progressMs past durationMs. -/
theorem progress_invariant (m : RootModel) (msg : Msg)
    (h0 : 0 ≤ m.progressMs) (h1 : m.progressMs ≤ m.durationMs)
    (hps : ∀ ps : PlayerStateData, msg = Msg.playerState ps →
      0 ≤ ps.progressMs ∧ ps.progressMs ≤ ps.durationMs) :
    0 ≤ (updateModel m msg).1.progressMs
    ∧ (updateModel m msg).1.progressMs ≤ (updateModel m msg).1.durationMs := by
  cases msg with
  | windowSize w h => exact ⟨h0, h1⟩
  | key k =>
    have hf := handleKey_frame m k
    simp only [updateModel]
    rw [hf.1, hf.2]
    exact ⟨h0, h1⟩
  | mouse b a x y =>
    have hf := handleMouse_frame m b a x y
    simp only [updateModel]
    rw [hf.1, hf.2]
    exact ⟨h0, h1⟩
  | tick =>
    have hd : (handleTick m).1.durationMs = m.durationMs := by
      unfold handleTick
      split_ifs <;> simp
    have hp := handleTick_progress m
    show 0 ≤ (handleTick m).1.progressMs ∧ (handleTick m).1.progressMs ≤ (handleTick m).1.durationMs
    rw [hp, hd]
    split_ifs <;> constructor <;> omega
  | playerState ps => exact hps ps rfl
  | status s => exact ⟨h0, h1⟩
  | clearStatus => exact ⟨h0, h1⟩
  | err e => exact ⟨h0, h1⟩
  | searchResults ts => exact ⟨h0, h1⟩

/-- C2 witness: the invariant instance at the initial model and a tick. -/
theorem progress_invariant_witness :
    0 ≤ (updateModel (newRootModel true) Msg.tick).1.progressMs
    ∧ (updateModel (newRootModel true) Msg.tick).1.progressMs ≤
      (updateModel (newRootModel true) Msg.tick).1.durationMs :=
  progress_invariant (newRootModel true) Msg.tick (by decide) (by decide)
    (fun ps h => nomatch h)

/-- C3 (amended): with a client, a backward seek (available while progress is
positive) requests max(progressMs − 10000, 0), and a forward seek (available
while the duration is positive) requests progressMs + 10000 when that does
not exceed the duration and durationMs − 1000 otherwise; a backward seek
from progress 3000 requests position 0.  Both set the burst counter to
10. -/
theorem seek_requests (m : RootModel) (hs : m.isSearching = false)
    (hc : m.hasClient = true) (hp : m.progressMs > 0) (hd : m.durationMs > 0) :
    updateModel m (Msg.key "left") =
      ({ m with burstTicksRemaining := 10 }, Cmd.seek (max (m.progressMs - 10000) 0))
    ∧ updateModel m (Msg.key "right") =
      ({ m with burstTicksRemaining := 10 },
        Cmd.seek (if m.progressMs + 10000 > m.durationMs then m.durationMs - 1000
          else m.progressMs + 10000))
    ∧ (m.progressMs = 3000 → (updateModel m (Msg.key "left")).2 = Cmd.seek 0) := by
  refine ⟨?_, ?_, ?_⟩
  · simp only [updateModel, handleKey, handleNormalKey, hs, hc, hp]
    simp
    split_ifs <;> omega
  · simp only [updateModel, handleKey, handleNormalKey, hs, hc, hd]
    simp
  · intro h3
    simp only [updateModel, handleKey, handleNormalKey, hs, hc, hp, h3]
    simp

/-- C3 witness: from progress 3000 of 200000, the backward seek requests 0
and the forward seek requests 13000. -/
theorem seek_requests_witness :
    updateModel midTrackModel (Msg.key "left") =
      ({ midTrackModel with burstTicksRemaining := 10 }, Cmd.seek 0)
    ∧ updateModel midTrackModel (Msg.key "right") =
      ({ midTrackModel with burstTicksRemaining := 10 }, Cmd.seek 13000) := by
  have h := seek_requests midTrackModel rfl rfl (by decide) (by decide)
  exact ⟨h.1, h.2.1⟩

theorem scanDevices_fst (ds : List PlayerDevice) (fv : Option PlayerDevice) :
    (scanDevices ds fv).1 = (ds.filter validDevice).find? (fun d => d.active) := by
  induction ds generalizing fv with
  | nil => rfl
  | cons d rest ih =>
    by_cases hv : validDevice d = true
    · by_cases ha : d.active = true
      · simp [scanDevices, hv, ha, List.filter_cons_of_pos, List.find?_cons_of_pos]
      · simp [scanDevices, hv, ha, List.filter_cons_of_pos, List.find?_cons_of_neg, ih]
    · simp [scanDevices, hv, List.filter_cons_of_neg, ih]

theorem scanDevices_snd (ds : List PlayerDevice) (fv : Option PlayerDevice)
    (h : (ds.filter validDevice).find? (fun d => d.active) = Option.none) :
    (scanDevices ds fv).2 = (fv <|> (ds.filter validDevice).head?) := by
  induction ds generalizing fv with
  | nil => cases fv <;> rfl
  | cons d rest ih =>
    by_cases hv : validDevice d = true
    · by_cases ha : d.active = true
      · rw [List.filter_cons_of_pos hv, List.find?_cons_of_pos _ ha] at h
        exact absurd h (by simp)
      · rw [List.filter_cons_of_pos hv, List.find?_cons_of_neg _ (by simp [ha])] at h
        cases fv with
        | none =>
          simp only [scanDevices, hv, ha, Option.isNone_none, if_true, Bool.false_eq_true,
            if_false]
          rw [ih (some d) h]
          simp [List.filter_cons_of_pos hv]
        | some a =>
          simp only [scanDevices, hv, ha, Option.isNone_some, if_true, Bool.false_eq_true,
            if_false]
          rw [ih (some a) h]
          simp
    · rw [List.filter_cons_of_neg hv] at h
      simp only [scanDevices, hv, Bool.false_eq_true, if_false]
      rw [ih fv h, List.filter_cons_of_neg hv]

theorem ensureActiveDevice_eq (ds : List PlayerDevice) (h : ds ≠ []) :
    ensureActiveDevice ds =
      match (validOf ds).find? (fun d => d.active) with
      | some _ => Except.ok Option.none
      | Option.none =>
        match (validOf ds).head? with
        | some d => Except.ok (some d.id)
        | Option.none => Except.error "no controllable devices available" := by
  unfold ensureActiveDevice validOf
  rw [if_neg h]
  cases hfind : (ds.filter validDevice).find? (fun d => d.active) with
  | some d =>
    have h1 : (scanDevices ds Option.none).1 = some d := by
      rw [scanDevices_fst ds Option.none, hfind]
    cases hscan : scanDevices ds Option.none with
    | mk o1 o2 =>
      rw [hscan] at h1
      subst h1
      rfl
  | none =>
    have h1 : (scanDevices ds Option.none).1 = Option.none := by
      rw [scanDevices_fst ds Option.none, hfind]
    have h2 := scanDevices_snd ds Option.none hfind
    cases hscan : scanDevices ds Option.none with
    | mk o1 o2 =>
      rw [hscan] at h1 h2
      subst h1
      simp only [Option.none_orElse] at h2
      subst h2
      cases (ds.filter validDevice).head? <;> rfl

/-- C4 counterexample: with an empty device list, the resume path fails with
the "no devices found" error, which is not the "no controllable devices"
error the claim names for the nothing-remains case. -/
theorem device_error_counterexample :
    ensureActiveDevice [] = Except.error "no devices found; open Spotify on a device"
    ∧ "no devices found; open Spotify on a device" ≠ "no controllable devices available" :=
  ⟨rfl, by decide⟩

/-- C4 (amended): on a non-empty device list the resume path excludes
restricted devices and types outside Computer, Smartphone and Speaker; if an
active device remains it issues no transfer; otherwise it transfers playback
to the first remaining device in list order; if none remain it fails with
the "no controllable devices available" error (an empty list fails earlier
with "no devices found"); pressing play while paused sets the burst counter
to 10 and issues the resume command; and when a transfer was needed and the
remote calls succeed the resume result is the "Resumed playback." status. -/
theorem device_activation_policy (ds : List PlayerDevice) (h : ds ≠ []) :
    (ensureActiveDevice ds =
      match (validOf ds).find? (fun d => d.active) with
      | some _ => Except.ok Option.none
      | Option.none =>
        match (validOf ds).head? with
        | some d => Except.ok (some d.id)
        | Option.none => Except.error "no controllable devices available")
    ∧ (∀ m : RootModel, m.isSearching = false → m.hasClient = true → m.isPlaying = false →
        updateModel m (Msg.key "p") = ({ m with burstTicksRemaining := 10 }, Cmd.resume))
    ∧ ((validOf ds).find? (fun d => d.active) = Option.none →
        ∀ d, (validOf ds).head? = some d →
          resumePlayback ds (Except.ok ()) (Except.ok (some false)) (Except.ok ()) =
            Msg.status "Resumed playback.") := by
  refine ⟨ensureActiveDevice_eq ds h, ?_, ?_⟩
  · intro m hs hc hpl
    simp [updateModel, handleKey, handleNormalKey, hs, hc, hpl]
  · intro hfind d hd
    unfold resumePlayback
    rw [ensureActiveDevice_eq ds h, hfind, hd]

/-- C4 witness: one inactive controllable device: the decision transfers to
it, pressing play from the paused initial state emits the resume command
with burst 10, and the resume result is the "Resumed playback." status. -/
theorem device_activation_policy_witness :
    ensureActiveDevice [loneDevice] = Except.ok (some "dev1")
    ∧ updateModel (newRootModel true) (Msg.key "p") =
        ({ newRootModel true with burstTicksRemaining := 10 }, Cmd.resume)
    ∧ resumePlayback [loneDevice] (Except.ok ()) (Except.ok (some false)) (Except.ok ()) =
        Msg.status "Resumed playback." := by
  have h := device_activation_policy [loneDevice] (by decide)
  exact ⟨rfl, h.2.1 (newRootModel true) rfl rfl rfl,
    h.2.2 (by decide) loneDevice (by decide)⟩

/-- C6: a successful search with a non-empty result list stores at most ten
tracks (the first ten in remote order), every results event resets the
cursor to zero, and an empty result list produces the "No results found"
status, which leaves the stored search results unchanged (empty when they
were empty). -/
theorem search_results_truncation (m : RootModel) (tracks : List Track) (hne : tracks ≠ []) :
    searchCmdResult (Except.ok tracks) =
      Msg.searchResults (if tracks.length > 10 then tracks.take 10 else tracks)
    ∧ (updateModel m (searchCmdResult (Except.ok tracks))).1.searchResults = tracks.take 10
    ∧ (updateModel m (searchCmdResult (Except.ok tracks))).1.searchResults.length ≤ 10
    ∧ (updateModel m (searchCmdResult (Except.ok tracks))).1.searchCursor = 0
    ∧ (∀ ts : List Track, (updateModel m (Msg.searchResults ts)).1.searchCursor = 0)
    ∧ searchCmdResult (Except.ok []) = Msg.status "No results found"
    ∧ (updateModel m (Msg.status "No results found")).1.searchResults = m.searchResults := by
  have hlen : ¬tracks.length = 0 := by simpa using hne
  have hmsg : searchCmdResult (Except.ok tracks) =
      Msg.searchResults (if tracks.length > 10 then tracks.take 10 else tracks) := by
    simp only [searchCmdResult]
    rw [if_neg hlen]
  have hstore : (updateModel m (searchCmdResult (Except.ok tracks))).1.searchResults =
      (if tracks.length > 10 then tracks.take 10 else tracks) := by
    rw [hmsg]
    rfl
  refine ⟨hmsg, ?_, ?_, ?_, fun ts => rfl, rfl, rfl⟩
  · rw [hstore]
    split_ifs with hgt
    · rfl
    · exact (List.take_of_length_le (by omega)).symm
  · rw [hstore]
    split_ifs with hgt
    · simp [List.length_take]
    · omega
  · rw [hmsg]
    rfl

/-- C6 witness: fifteen incoming tracks are truncated to ten stored entries
with the cursor reset to zero. -/
theorem search_results_truncation_witness :
    (updateModel (newRootModel true)
      (searchCmdResult (Except.ok (List.replicate 15 defaultTrack)))).1.searchResults.length ≤ 10
    ∧ (updateModel (newRootModel true)
      (searchCmdResult (Except.ok (List.replicate 15 defaultTrack)))).1.searchCursor = 0 := by
  have h := search_results_truncation (newRootModel true)
    (List.replicate 15 defaultTrack) (by decide)
  exact ⟨h.2.2.1, h.2.2.2.1⟩

theorem applyEvents_status_frame (m : RootModel) (n : Nat) :
    playbackFields (applyEvents m (List.replicate n (pollStateResult Option.none))) =
      playbackFields m := by
  induction n generalizing m with
  | zero => rfl
  | succ k ih =>
    rw [List.replicate_succ]
    exact ih ((updateModel m (pollStateResult Option.none)).1)

/-- C7: a failed refresh or one reporting no active session produces the
"Waiting for playback..." status; a status update stores the text and leaves
every playback field (track, artist, progress, duration, playing flag, track
id, liked flag, volume) unchanged, and any number of such failing refresh
results in sequence leaves them unchanged, until a track-bearing refresh
result overwrites them with its payload. -/
theorem waiting_refresh_frame (m : RootModel) (s : String) (n : Nat) (ps : PlayerStateData) :
    pollStateResult Option.none = Msg.status "Waiting for playback..."
    ∧ (updateModel m (Msg.status s)).1.status = s
    ∧ playbackFields ((updateModel m (Msg.status s)).1) = playbackFields m
    ∧ playbackFields (applyEvents m (List.replicate n (pollStateResult Option.none))) =
        playbackFields m
    ∧ playbackFields ((updateModel m (Msg.playerState ps)).1) =
        (ps.trackName, ps.artistName, ps.progressMs, ps.durationMs, ps.playing,
          ps.id, ps.liked, ps.volume) :=
  ⟨rfl, rfl, rfl, applyEvents_status_frame m n, rfl⟩

theorem handleSearchKey_showHelp (m : RootModel) (k : String) :
    (handleSearchKey m k).1.showHelp = m.showHelp := by
  simp only [handleSearchKey]
  repeat' split
  all_goals rfl

/-- C8 (amended): help and search are independent flags, not a single
three-valued mode: both can be active at once (pressing "?" and then "s"
from the initial state reaches that configuration), key routing gives the
search handler priority and it never touches the help flag, and while help
is shown only "esc" and "?" close it — any other key falls through to the
normal bindings, so for example "p" dispatches play or pause with help still
open. -/
theorem mode_routing (m : RootModel) (k : String) :
    (m.isSearching = true → (updateModel m (Msg.key k)).1.showHelp = m.showHelp)
    ∧ (m.isSearching = false → m.showHelp = true → k ≠ "esc" → k ≠ "?" →
        updateModel m (Msg.key k) = handleNormalKey m k)
    ∧ (m.isSearching = false → m.showHelp = true → m.hasClient = true →
        updateModel m (Msg.key "p") =
          ({ m with burstTicksRemaining := 10 },
            if m.isPlaying = true then Cmd.pause else Cmd.resume))
    ∧ ((updateModel ((updateModel (newRootModel true) (Msg.key "?")).1)
        (Msg.key "s")).1.showHelp = true
      ∧ (updateModel ((updateModel (newRootModel true) (Msg.key "?")).1)
        (Msg.key "s")).1.isSearching = true) := by
  refine ⟨?_, ?_, ?_, rfl, rfl⟩
  · intro hs
    simp only [updateModel, handleKey, hs, if_true]
    exact handleSearchKey_showHelp m k
  · intro hs hh hne1 hne2
    simp only [updateModel, handleKey, hs, Bool.false_eq_true, if_false]
    rw [if_neg (by simp [hne1, hne2])]
  · intro hs hh hc
    simp [updateModel, handleKey, handleNormalKey, hs, hc]
    split_ifs <;> rfl

/-- C8 witness: with help open and a client, pressing "p" dispatches the
resume command with burst 10 and help still open. -/
theorem mode_routing_witness :
    updateModel helpOpenModel (Msg.key "p") =
      ({ helpOpenModel with burstTicksRemaining := 10 }, Cmd.resume) := by
  have h := (mode_routing helpOpenModel "p").2.2.1 rfl rfl rfl
  simpa using h

theorem progressBarWidth_ge (m : RootModel) : 10 ≤ progressBarWidth m := by
  simp only [progressBarWidth]
  split_ifs <;> omega

theorem progressRowCheck_dispatch (m : RootModel) (x y : Int) (hy : y = 5)
    (hc : m.hasClient = true) (hd : m.durationMs > 0)
    (h0 : 0 ≤ barClickPosOf m x) (h1 : barClickPosOf m x < progressBarWidth m) :
    progressRowCheck m x y =
      ({ m with burstTicksRemaining := 10 },
        Cmd.seek (Int.floor ((barClickPosOf m x : ℚ) / (progressBarWidth m : ℚ)
          * (m.durationMs : ℚ)))) := by
  have hwpos : (0 : Int) < progressBarWidth m :=
    lt_of_lt_of_le (by norm_num) (progressBarWidth_ge m)
  have hw : (0 : ℚ) < (progressBarWidth m : ℚ) := by exact_mod_cast hwpos
  have hf0 : (0 : ℚ) ≤ (barClickPosOf m x : ℚ) / (progressBarWidth m : ℚ) :=
    div_nonneg (by exact_mod_cast h0) hw.le
  have hf1 : (barClickPosOf m x : ℚ) / (progressBarWidth m : ℚ) ≤ 1 := by
    rw [div_le_one hw]
    exact_mod_cast h1.le
  simp only [progressRowCheck]
  rw [if_pos ⟨by omega, hc, hd⟩, if_pos ⟨h0, h1⟩, if_neg (not_lt.mpr hf0),
    if_neg (not_lt.mpr hf1)]

theorem handleMouseRelease_row5 (m : RootModel) (x y : Int) (hy : y = 5) :
    handleMouseRelease m x y = progressRowCheck m x y := by
  simp only [handleMouseRelease]
  rw [if_neg (by simp [hy])]

theorem handleMouse_release (m : RootModel) (b : MouseButton) (a : MouseAction) (x y : Int)
    (hs : m.isSearching = false) (ha : a = MouseAction.release) :
    handleMouse m b a x y = handleMouseRelease m x y := by
  simp only [handleMouse]
  rw [if_neg (by simp [hs]), if_neg (by simp [hs]), if_neg (by simp [ha])]

theorem progressRowCheck_seek (m : RootModel) (x y : Int) (pos : Int)
    (h : (progressRowCheck m x y).2 = Cmd.seek pos) :
    y = 5 ∧ m.hasClient = true ∧ m.durationMs > 0 ∧ 0 ≤ barClickPosOf m x
    ∧ barClickPosOf m x < progressBarWidth m
    ∧ pos = Int.floor ((barClickPosOf m x : ℚ) / (progressBarWidth m : ℚ)
        * (m.durationMs : ℚ)) := by
  simp only [progressRowCheck] at h
  by_cases h1 : y = 1 + 1 + 2 + 1 ∧ m.hasClient = true ∧ m.durationMs > 0
  case neg =>
    rw [if_neg h1] at h
    exact absurd h (by simp)
  rw [if_pos h1] at h
  by_cases h2 : 0 ≤ barClickPosOf m x ∧ barClickPosOf m x < progressBarWidth m
  case neg =>
    rw [if_neg h2] at h
    exact absurd h (by simp)
  rw [if_pos h2] at h
  obtain ⟨hy, hc, hd⟩ := h1
  obtain ⟨h0, hlt⟩ := h2
  refine ⟨by omega, hc, hd, h0, hlt, ?_⟩
  have hwpos : (0 : Int) < progressBarWidth m :=
    lt_of_lt_of_le (by norm_num) (progressBarWidth_ge m)
  have hw : (0 : ℚ) < (progressBarWidth m : ℚ) := by exact_mod_cast hwpos
  have hf0 : (0 : ℚ) ≤ (barClickPosOf m x : ℚ) / (progressBarWidth m : ℚ) :=
    div_nonneg (by exact_mod_cast h0) hw.le
  have hf1 : (barClickPosOf m x : ℚ) / (progressBarWidth m : ℚ) ≤ 1 := by
    rw [div_le_one hw]
    exact_mod_cast hlt.le
  rw [if_neg (not_lt.mpr hf0), if_neg (not_lt.mpr hf1)] at h
  have h' : Cmd.seek (Int.floor ((barClickPosOf m x : ℚ) / (progressBarWidth m : ℚ)
      * (m.durationMs : ℚ))) = Cmd.seek pos := h
  injection h' with h''
  exact h''.symm

theorem handleMouseRelease_seek (m : RootModel) (x y : Int) (pos : Int)
    (h : (handleMouseRelease m x y).2 = Cmd.seek pos) :
    (progressRowCheck m x y).2 = Cmd.seek pos := by
  simp only [handleMouseRelease] at h
  split_ifs at h
  all_goals exact h

theorem handleMouse_seek (m : RootModel) (b : MouseButton) (a : MouseAction) (x y : Int)
    (pos : Int) (h : (handleMouse m b a x y).2 = Cmd.seek pos) :
    a = MouseAction.release ∧ (handleMouseRelease m x y).2 = Cmd.seek pos := by
  simp only [handleMouse] at h
  split_ifs at h
  all_goals first
    | exact absurd h (by simp)
    | exact ⟨not_not.mp (by assumption), h⟩

/-- C9 (amended): non-release pointer events emit no command; a seek is
emitted only by a release on row 5 with a client, a positive duration and a
click inside the bar's horizontal span; and in that case the seek target is
the integer truncation of the click's relative X over the bar width times
the duration (Go truncates the floating-point product to an int, so the
target is the floor of the exact fraction, not the fraction itself). -/
theorem progress_bar_click (m : RootModel) (b : MouseButton) (a : MouseAction) (x y : Int) :
    (a ≠ MouseAction.release → (updateModel m (Msg.mouse b a x y)).2 = Cmd.none)
    ∧ (∀ pos : Int, (updateModel m (Msg.mouse b a x y)).2 = Cmd.seek pos →
        a = MouseAction.release ∧ y = 5 ∧ m.hasClient = true ∧ m.durationMs > 0
        ∧ 0 ≤ barClickPosOf m x ∧ barClickPosOf m x < progressBarWidth m
        ∧ pos = Int.floor ((barClickPosOf m x : ℚ) / (progressBarWidth m : ℚ)
            * (m.durationMs : ℚ)))
    ∧ (m.isSearching = false → a = MouseAction.release → y = 5 → m.hasClient = true →
        m.durationMs > 0 → 0 ≤ barClickPosOf m x → barClickPosOf m x < progressBarWidth m →
        updateModel m (Msg.mouse b a x y) =
          ({ m with burstTicksRemaining := 10 },
            Cmd.seek (Int.floor ((barClickPosOf m x : ℚ) / (progressBarWidth m : ℚ)
              * (m.durationMs : ℚ))))) := by
  refine ⟨?_, ?_, ?_⟩
  · intro hna
    simp only [updateModel, handleMouse]
    split_ifs
    all_goals rfl
  · intro pos h
    have h2 := handleMouse_seek m b a x y pos h
    exact ⟨h2.1, progressRowCheck_seek m x y pos (handleMouseRelease_seek m x y pos h2.2)⟩
  · intro hs ha hy hc hd h0 h1
    show handleMouse m b a x y = _
    rw [handleMouse_release m b a x y hs ha, handleMouseRelease_row5 m x y hy,
      progressRowCheck_dispatch m x y hy hc hd h0 h1]

/-- C9 witness: in a 29-column terminal over a 25 ms track, a release at
column 12 of row 5 is one cell into the ten-cell bar and dispatches a seek
to the truncated tenth of the duration, with burst 10. -/
theorem progress_bar_click_witness :
    updateModel clickModel (Msg.mouse MouseButton.left MouseAction.release 12 5) =
      ({ clickModel with burstTicksRemaining := 10 },
        Cmd.seek (Int.floor ((barClickPosOf clickModel 12 : ℚ)
          / (progressBarWidth clickModel : ℚ) * (clickModel.durationMs : ℚ)))) :=
  (progress_bar_click clickModel MouseButton.left MouseAction.release 12 5).2.2
    rfl rfl rfl rfl (by decide) (by decide) (by decide)

/-- C9 counterexample: the same release dispatches a seek to 2 ms, but the
click fraction times the duration is 5/2, so the dispatched target is the
truncation, not the product itself. -/
theorem progress_click_truncation_counterexample :
    (updateModel clickModel (Msg.mouse MouseButton.left MouseAction.release 12 5)).2 =
      Cmd.seek 2
    ∧ ((2 : ℚ) ≠ (barClickPosOf clickModel 12 : ℚ) / (progressBarWidth clickModel : ℚ)
        * (clickModel.durationMs : ℚ)) := by
  have hbar : barClickPosOf clickModel 12 = 1 := by decide
  have hwidth : progressBarWidth clickModel = 10 := by decide
  have hdur : clickModel.durationMs = 25 := rfl
  have hfloor : Int.floor ((barClickPosOf clickModel 12 : ℚ)
      / (progressBarWidth clickModel : ℚ) * (clickModel.durationMs : ℚ)) = 2 := by
    rw [hbar, hwidth, hdur]
    push_cast
    norm_num
  constructor
  · have h := (progress_bar_click clickModel MouseButton.left MouseAction.release 12 5).2.2
      rfl rfl rfl rfl (by decide) (by decide) (by decide)
    rw [h]
    simp [hfloor]
  · rw [hbar, hwidth, hdur]
    push_cast
    norm_num

end Spotirice
